import Mathlib

/-!
Verification of the data-cleaning and derived-feature pipeline of the
Team-6 Taxi App repository (`backend/data_processing/process_real_data.js`,
class `DataCleaner`).

The JavaScript code is shallowly embedded:
* JS numbers are modelled by `JNum`: either NaN, a signed infinity, or an exact
  rational.  JS comparison and arithmetic semantics on these values are
  reproduced (any comparison involving NaN is false, NaN propagates through
  arithmetic, `x / 0` is NaN for `x = 0` and a signed infinity otherwise).
  Binary-float rounding is not modelled; all concrete inputs used below are
  exactly representable in the ranges at issue, and no claim hinges on
  rounding.
* A CSV cell (always a string in the source: `csv-parser` yields string
  fields) is modelled abstractly by `JStr`, recording exactly the
  observations the pipeline makes of the string: whether it is the empty
  string, whether it trims to the empty string, its `parseFloat` and
  `parseInt` values, and its `moment(...)` parse (epoch seconds, `none` when
  invalid).
* A field of the in-flight mutable record is a `JVal`: absent (`undef`),
  still the original string, or a number written by one of the validation
  stages.
* Timestamps are epoch seconds (an integer); `moment('2015-01-01')` and
  `moment('2020-12-31')` are the corresponding UTC epoch constants.
  File-system and console side effects of the source are not modelled.
-/

/-- Rational addition written out on numerators and denominators, so that
the kernel can evaluate it on concrete inputs (the library's `Rat.add` is
irreducible); proved equal to `a + b` below. -/
def rAdd (a b : ℚ) : ℚ := Rat.divInt (a.num * b.den + b.num * a.den) (a.den * b.den)

/-- Rational multiplication written out on numerators and denominators;
proved equal to `a * b` below. -/
def rMul (a b : ℚ) : ℚ := Rat.divInt (a.num * b.num) (a.den * b.den)

/-- Rational division written out on numerators and denominators (zero
divisor gives zero, as for `a / b`); proved equal to `a / b` below. -/
def rDiv (a b : ℚ) : ℚ := Rat.divInt (a.num * b.den) (a.den * b.num)

/-- Model of a JavaScript number: NaN, signed infinity, or an exact
rational. -/
inductive JNum where
  | nan : JNum
  | inf : JNum
  | ninf : JNum
  | num : ℚ → JNum
deriving DecidableEq, Repr

namespace JNum

/-- JS `<`: any comparison with NaN is false; `-Infinity` is below and
`Infinity` above every non-NaN value. -/
def lt : JNum → JNum → Bool
  | nan, _ => false
  | _, nan => false
  | num a, num b => a < b
  | ninf, ninf => false
  | ninf, _ => true
  | _, ninf => false
  | inf, _ => false
  | num _, inf => true

/-- JS unary negation. -/
def neg : JNum → JNum
  | nan => nan
  | inf => ninf
  | ninf => inf
  | num a => num (-a)

/-- JS addition (on numbers; string concatenation is outside the model —
the pipeline only ever adds numeric fields). -/
def add : JNum → JNum → JNum
  | nan, _ => nan
  | _, nan => nan
  | inf, ninf => nan
  | ninf, inf => nan
  | inf, _ => inf
  | _, inf => inf
  | ninf, _ => ninf
  | _, ninf => ninf
  | num a, num b => num (rAdd a b)

/-- JS subtraction, as `a + (-b)`. -/
def sub (a b : JNum) : JNum := add a (neg b)

/-- JS multiplication (the `-0` distinction is not modelled). -/
def mul : JNum → JNum → JNum
  | nan, _ => nan
  | _, nan => nan
  | num a, num b => num (rMul a b)
  | inf, inf => inf
  | inf, ninf => ninf
  | ninf, inf => ninf
  | ninf, ninf => inf
  | inf, num b => if b = 0 then nan else if 0 < b then inf else ninf
  | num a, inf => if a = 0 then nan else if 0 < a then inf else ninf
  | ninf, num b => if b = 0 then nan else if 0 < b then ninf else inf
  | num a, ninf => if a = 0 then nan else if 0 < a then ninf else inf

/-- JS division: `0 / 0` is NaN, `x / 0` a signed infinity for `x` nonzero
(the `-0` distinction is not modelled). -/
def div : JNum → JNum → JNum
  | nan, _ => nan
  | _, nan => nan
  | inf, inf => nan
  | inf, ninf => nan
  | ninf, inf => nan
  | ninf, ninf => nan
  | inf, num b => if 0 ≤ b then inf else ninf
  | ninf, num b => if 0 ≤ b then ninf else inf
  | num _, inf => num 0
  | num _, ninf => num 0
  | num a, num b =>
      if b = 0 then (if a = 0 then nan else if 0 < a then inf else ninf)
      else num (rDiv a b)

/-- JS `Math.max` on two values: NaN if either argument is NaN. -/
def jmax : JNum → JNum → JNum
  | nan, _ => nan
  | _, nan => nan
  | a, b => if lt a b then b else a

/-- JS `isNaN` on an already-numeric value. -/
def isNaNb : JNum → Bool
  | nan => true
  | _ => false

/-- Truncation toward zero of a rational, as JS `parseInt` applied to the
decimal rendering of a number. -/
def truncQ (q : ℚ) : ℚ := ((Int.tdiv q.num q.den : ℤ) : ℚ)

end JNum

/-- Abstract view of a JavaScript string field as the pipeline observes it:
`empty` is `s === ''` (the only falsy string), `blank` is
`s.trim() === ''`, `pFloat`/`pInt` are `parseFloat(s)`/`parseInt(s)`, and
`time` is the `moment(s)` parse in epoch seconds (`none` when invalid). -/
structure JStr where
  empty : Bool
  blank : Bool
  pFloat : JNum
  pInt : JNum
  time : Option ℤ
deriving DecidableEq, Repr

/-- A field of the in-flight record object: absent, a string from the CSV
row, or a number written by a validation stage. -/
inductive JVal where
  | undef : JVal
  | str : JStr → JVal
  | num : JNum → JVal
deriving DecidableEq, Repr

namespace JVal

/-- JS truthiness: `undefined` is falsy, a string is falsy iff empty, a
number is falsy iff `0` or NaN. -/
def truthy : JVal → Bool
  | undef => false
  | str s => !s.empty
  | num JNum.nan => false
  | num (JNum.num q) => q ≠ 0
  | num _ => true

/-- View of a field as a number.  Processed records always carry numbers in
the fields read this way (written by the validation stages); `undefined`
coerces to NaN as in JS.  A string here would be coerced by JS's
`ToNumber`; that case never arises on the fields this is applied to and is
mapped to NaN. -/
def toNum : JVal → JNum
  | num x => x
  | _ => JNum.nan

end JVal

/-- JS `a || b`. -/
def jsOr (a b : JVal) : JVal := if a.truthy then a else b

/-- JS `parseFloat`: on a string the recorded parse; `parseFloat(undefined)`
is NaN; on a number, the number itself (`parseFloat(String(x))`). -/
def jsParseFloat : JVal → JNum
  | JVal.undef => JNum.nan
  | JVal.str s => s.pFloat
  | JVal.num x => x

/-- JS `parseInt`: on a string the recorded parse; NaN on `undefined`,
truncation toward zero on a finite number, NaN on infinities. -/
def jsParseInt : JVal → JNum
  | JVal.undef => JNum.nan
  | JVal.str s => s.pInt
  | JVal.num (JNum.num q) => JNum.num (JNum.truncQ q)
  | JVal.num _ => JNum.nan

/-- The `moment(value)` parse in epoch seconds: a string parses per its
recorded `time`; `undefined` is invalid; a finite number is epoch
milliseconds. -/
def jsMoment : JVal → Option ℤ
  | JVal.str s => s.time
  | JVal.num (JNum.num q) => some ⌊q / 1000⌋
  | _ => none

/-- The check in `handleMissingValues` for one critical field:
`!record[f] || record[f].trim() === ''` rejects, so the field passes iff it
is truthy and does not trim to the empty string.  (Calling `.trim()` on a
number would throw in JS; number-valued critical fields cannot occur, since
CSV rows hold only strings and no stage writes a critical field before this
check.) -/
def criticalPresent : JVal → Bool
  | JVal.undef => false
  | JVal.str s => !s.empty && !s.blank
  | JVal.num x => JVal.truthy (JVal.num x)

/-- One raw CSV row as `csv-parser` delivers it to `cleanRecord`: each
pipeline-relevant column is either absent or a string cell.  Columns the
pipeline never reads are omitted. -/
structure RawRow where
  pickup_datetime : Option JStr
  dropoff_datetime : Option JStr
  pickup_longitude : Option JStr
  pickup_latitude : Option JStr
  dropoff_longitude : Option JStr
  dropoff_latitude : Option JStr
  passenger_count : Option JStr
  trip_distance : Option JStr
  fare_amount : Option JStr
  tip_amount : Option JStr
  tolls_amount : Option JStr
  total_amount : Option JStr
  payment_type : Option JStr
deriving DecidableEq, Repr

/-- The in-flight record object, mutated by the stages of `cleanRecord`.
Fields written during processing (`trip_duration` and the derived features)
start out absent. -/
structure Rec where
  pickup_datetime : JVal
  dropoff_datetime : JVal
  pickup_longitude : JVal
  pickup_latitude : JVal
  dropoff_longitude : JVal
  dropoff_latitude : JVal
  passenger_count : JVal
  trip_distance : JVal
  fare_amount : JVal
  tip_amount : JVal
  tolls_amount : JVal
  total_amount : JVal
  payment_type : JVal
  trip_duration : JVal
  trip_speed_mph : JVal
  fare_per_mile : JVal
  idle_time_minutes : JVal
  tip_percentage : JVal
deriving DecidableEq, Repr

/-- Lift an `Option JStr` cell to a record field. -/
def cellVal : Option JStr → JVal
  | none => JVal.undef
  | some s => JVal.str s

/-- The record object built from one CSV row (absent column ↦ `undefined`,
present column ↦ its string). -/
def toRec (row : RawRow) : Rec where
  pickup_datetime := cellVal row.pickup_datetime
  dropoff_datetime := cellVal row.dropoff_datetime
  pickup_longitude := cellVal row.pickup_longitude
  pickup_latitude := cellVal row.pickup_latitude
  dropoff_longitude := cellVal row.dropoff_longitude
  dropoff_latitude := cellVal row.dropoff_latitude
  passenger_count := cellVal row.passenger_count
  trip_distance := cellVal row.trip_distance
  fare_amount := cellVal row.fare_amount
  tip_amount := cellVal row.tip_amount
  tolls_amount := cellVal row.tolls_amount
  total_amount := cellVal row.total_amount
  payment_type := cellVal row.payment_type
  trip_duration := JVal.undef
  trip_speed_mph := JVal.undef
  fare_per_mile := JVal.undef
  idle_time_minutes := JVal.undef
  tip_percentage := JVal.undef

/-- NYC bounding-box latitude lower bound (`nycBounds.minLat`). -/
def minLat : ℚ := Rat.divInt 404774 10000

/-- NYC bounding-box latitude upper bound (`nycBounds.maxLat`). -/
def maxLat : ℚ := Rat.divInt 409176 10000

/-- NYC bounding-box longitude lower bound (`nycBounds.minLon`). -/
def minLon : ℚ := Rat.divInt (-742591) 10000

/-- NYC bounding-box longitude upper bound (`nycBounds.maxLon`). -/
def maxLon : ℚ := Rat.divInt (-737004) 10000

/-- Epoch seconds of `moment('2015-01-01')` (UTC; the model is
timezone-free). -/
def startDate : ℤ := 1420070400

/-- Epoch seconds of `moment('2020-12-31')` (UTC; the model is
timezone-free). -/
def endDate : ℤ := 1609372800

/-- Shorthand for `x < c` with `c` a rational constant, in JS comparison
semantics. -/
def ltC (x : JNum) (c : ℚ) : Bool := JNum.lt x (JNum.num c)

/-- Shorthand for `x > c` with `c` a rational constant, in JS comparison
semantics. -/
def gtC (x : JNum) (c : ℚ) : Bool := JNum.lt (JNum.num c) x

/-- Stage 1, `handleMissingValues`: reject when any critical field is
absent/empty/blank; otherwise default the non-critical fields
(`passenger_count = 1`, monetary fields `= 0`, `payment_type = 1`) when
falsy.  Returns the updated record, or `none` for rejection (the JS method
returns a boolean and mutates in place). -/
def handleMissingValues (r : Rec) : Option Rec :=
  if criticalPresent r.pickup_datetime && criticalPresent r.dropoff_datetime &&
     criticalPresent r.pickup_longitude && criticalPresent r.pickup_latitude &&
     criticalPresent r.dropoff_longitude && criticalPresent r.dropoff_latitude then
    some { r with
      passenger_count := jsOr r.passenger_count (JVal.num (JNum.num 1))
      trip_distance := jsOr r.trip_distance (JVal.num (JNum.num 0))
      fare_amount := jsOr r.fare_amount (JVal.num (JNum.num 0))
      tip_amount := jsOr r.tip_amount (JVal.num (JNum.num 0))
      tolls_amount := jsOr r.tolls_amount (JVal.num (JNum.num 0))
      total_amount := jsOr r.total_amount (JVal.num (JNum.num 0))
      payment_type := jsOr r.payment_type (JVal.num (JNum.num 1)) }
  else none

/-- Stage 2, `validateTimestamps`: both timestamps must parse, dropoff must
not precede pickup, pickup must lie in the 2015–2020 window, and the
computed `trip_duration = dropoff - pickup` (seconds, written into the
record) must lie in `[30, 86400]`. -/
def validateTimestamps (r : Rec) : Option Rec :=
  match jsMoment r.pickup_datetime, jsMoment r.dropoff_datetime with
  | some pickup, some dropoff =>
      if dropoff < pickup then none
      else if pickup < startDate || endDate < pickup then none
      else
        let dur : ℤ := dropoff - pickup
        let r' := { r with trip_duration := JVal.num (JNum.num (dur : ℚ)) }
        if dur < 30 || 86400 < dur then none else some r'
  | _, _ => none

/-- Stage 3, `validateCoordinates`: all four coordinates must `parseFloat`
to non-NaN numbers (which are written back into the record) and lie within
the NYC bounding box. -/
def validateCoordinates (r : Rec) : Option Rec :=
  let plon := jsParseFloat r.pickup_longitude
  let plat := jsParseFloat r.pickup_latitude
  let dlon := jsParseFloat r.dropoff_longitude
  let dlat := jsParseFloat r.dropoff_latitude
  if plon.isNaNb || plat.isNaNb || dlon.isNaNb || dlat.isNaNb then none
  else
    let r' := { r with
      pickup_longitude := JVal.num plon
      pickup_latitude := JVal.num plat
      dropoff_longitude := JVal.num dlon
      dropoff_latitude := JVal.num dlat }
    if ltC plat minLat || gtC plat maxLat || ltC plon minLon || gtC plon maxLon ||
       ltC dlat minLat || gtC dlat maxLat || ltC dlon minLon || gtC dlon maxLon then none
    else some r'

/-- Stage 4, `validateTripMetrics`: `passenger_count := parseInt(...)` must
not satisfy `< 1 || > 6`, then `trip_distance := parseFloat(...)` must not
satisfy `< 0 || > 500`.  The parses are written into the record before each
check, exactly as in the source (note that a NaN parse fails neither
comparison). -/
def validateTripMetrics (r : Rec) : Option Rec :=
  let p := jsParseInt r.passenger_count
  let r1 := { r with passenger_count := JVal.num p }
  if ltC p 1 || gtC p 6 then none
  else
    let d := jsParseFloat r1.trip_distance
    let r2 := { r1 with trip_distance := JVal.num d }
    if ltC d 0 || gtC d 500 then none else some r2

/-- Stage 5, `validateFareData`: the four monetary fields are re-parsed and
written back, then range-checked (`fare ∈ [0,1000]`, `tip ∈ [0,500]`,
`tolls ∈ [0,100]`, `total ∈ [0,2000]`); then `payment_type := parseInt(...)`
must not satisfy `< 1 || > 6`.  As in the source, a NaN parse fails no
comparison. -/
def validateFareData (r : Rec) : Option Rec :=
  let fare := jsParseFloat r.fare_amount
  let tip := jsParseFloat (jsOr r.tip_amount (JVal.num (JNum.num 0)))
  let tolls := jsParseFloat (jsOr r.tolls_amount (JVal.num (JNum.num 0)))
  let total := jsParseFloat r.total_amount
  let r1 := { r with
    fare_amount := JVal.num fare
    tip_amount := JVal.num tip
    tolls_amount := JVal.num tolls
    total_amount := JVal.num total }
  if ltC fare 0 || gtC fare 1000 || ltC tip 0 || gtC tip 500 ||
     ltC tolls 0 || gtC tolls 100 || ltC total 0 || gtC total 2000 then none
  else
    let pt := jsParseInt r1.payment_type
    let r2 := { r1 with payment_type := JVal.num pt }
    if ltC pt 1 || gtC pt 6 then none else some r2

/-- `calculateDerivedFeatures`: writes the three derived features (plus the
supporting `tip_percentage`) into the record.  Speed is
`distance / (duration/3600)` capped at 100 when `distance > 0 && duration
> 0`, else 0; fare per mile is `fare / distance` when `distance > 0`, else
0; idle time is `max(0, duration/60 - (distance/12)*60)` when `distance > 0
&& duration > 0`, else 0; tip percentage is `(tip/fare)*100` when
`fare > 0`, else 0. -/
def calculateDerivedFeatures (r : Rec) : Rec :=
  let dist := r.trip_distance.toNum
  let dur := r.trip_duration.toNum
  let fare := r.fare_amount.toNum
  let tip := r.tip_amount.toNum
  let speed :=
    if gtC dist 0 && gtC dur 0 then
      let durationHours := JNum.div dur (JNum.num 3600)
      let s := JNum.div dist durationHours
      if gtC s 100 then JNum.num 100 else s
    else JNum.num 0
  let fpm := if gtC dist 0 then JNum.div fare dist else JNum.num 0
  let idle :=
    if gtC dist 0 && gtC dur 0 then
      let expectedMovingTime := JNum.mul (JNum.div dist (JNum.num 12)) (JNum.num 60)
      let actualTime := JNum.div dur (JNum.num 60)
      JNum.jmax (JNum.num 0) (JNum.sub actualTime expectedMovingTime)
    else JNum.num 0
  let tipPct :=
    if gtC fare 0 then JNum.mul (JNum.div tip fare) (JNum.num 100) else JNum.num 0
  { r with
    trip_speed_mph := JVal.num speed
    fare_per_mile := JVal.num fpm
    idle_time_minutes := JVal.num idle
    tip_percentage := JVal.num tipPct }

/-- `isOutlier`: `trip_speed_mph > 80`, or `fare_per_mile > 50`, or
`idle_time_minutes > 120`. -/
def isOutlier (r : Rec) : Bool :=
  gtC r.trip_speed_mph.toNum 80 || gtC r.fare_per_mile.toNum 50 ||
    gtC r.idle_time_minutes.toNum 120

/-- The exclusion reason codes used by the pipeline. -/
inductive Reason where
  | missing_critical_data : Reason
  | invalid_timestamps : Reason
  | invalid_coordinates : Reason
  | invalid_trip_metrics : Reason
  | invalid_fare_data : Reason
  | outlier : Reason
  | processing_error : Reason
deriving DecidableEq, Repr

/-- The fixed `details` string pushed with each rejection in `cleanRecord`
(a `processing_error` entry instead carries the caught error message). -/
def detailsOf : Reason → String
  | Reason.missing_critical_data => "Missing pickup/dropoff datetime or coordinates"
  | Reason.invalid_timestamps => "Invalid or inconsistent pickup/dropoff times"
  | Reason.invalid_coordinates => "Coordinates outside NYC bounds or invalid"
  | Reason.invalid_trip_metrics => "Invalid passenger count, distance, or duration"
  | Reason.invalid_fare_data => "Invalid fare amounts or payment type"
  | Reason.outlier => "Record exceeds reasonable bounds"
  | Reason.processing_error => ""

/-- One entry of the exclusion log (`this.excludedRecords`). -/
structure ExclusionEntry where
  index : ℕ
  reason : Reason
  details : String
deriving DecidableEq, Repr

/-- The mutable state of a `DataCleaner` instance. -/
structure CleanerState where
  excludedRecords : List ExclusionEntry
  suspiciousRecords : List Rec
  processedRecords : List Rec
deriving DecidableEq, Repr

/-- The state built by the `DataCleaner` constructor. -/
def initState : CleanerState :=
  { excludedRecords := [], suspiciousRecords := [], processedRecords := [] }

/-- The five validation stages of `cleanRecord` in source order,
short-circuiting with the first failing stage's reason. -/
def validateStages (r : Rec) : Except Reason Rec :=
  match handleMissingValues r with
  | none => Except.error Reason.missing_critical_data
  | some r1 =>
    match validateTimestamps r1 with
    | none => Except.error Reason.invalid_timestamps
    | some r2 =>
      match validateCoordinates r2 with
      | none => Except.error Reason.invalid_coordinates
      | some r3 =>
        match validateTripMetrics r3 with
        | none => Except.error Reason.invalid_trip_metrics
        | some r4 =>
          match validateFareData r4 with
          | none => Except.error Reason.invalid_fare_data
          | some r5 => Except.ok r5

/-- The decision core of `cleanRecord`: the five validation stages, then
feature derivation, then the outlier check; `ok` is the cleaned (enriched)
record the source returns, `error` carries the reason pushed onto the
exclusion log. -/
def cleanRecordPure (r : Rec) : Except Reason Rec :=
  match validateStages r with
  | Except.error e => Except.error e
  | Except.ok r5 =>
    let r6 := calculateDerivedFeatures r5
    if isOutlier r6 then Except.error Reason.outlier else Except.ok r6

/-- The accepted record produced for a raw record, when there is one. -/
def acceptedRecord (r : Rec) : Option Rec :=
  match cleanRecordPure r with
  | Except.ok c => some c
  | Except.error _ => none

/-- `cleanRecord(record, index)`: returns the cleaned record or `null`, and
on rejection pushes an `ExclusionEntry` onto `this.excludedRecords`
(modelled by threading the instance state). -/
def cleanRecord (s : CleanerState) (r : Rec) (index : ℕ) :
    CleanerState × Option Rec :=
  match cleanRecordPure r with
  | Except.ok c => (s, some c)
  | Except.error rsn =>
      ({ s with excludedRecords :=
          s.excludedRecords ++ [⟨index, rsn, detailsOf rsn⟩] }, none)

/-- A per-record processing action as seen by the loop of `cleanData`:
given the instance state, the record and its index, produce the updated
state together with either the outcome (`some` cleaned record or `null`) or
a thrown exception carrying its message.  `cleanData` wraps each record's
processing in `try`/`catch`; the `Except` layer models a throw. -/
def StepFun : Type :=
  CleanerState → Rec → ℕ → CleanerState × Except String (Option Rec)

/-- The actual per-record action of the source: `this.cleanRecord(record,
i)`, which never throws in the embedded semantics. -/
def cleanRecordStep : StepFun := fun s r i =>
  let p := cleanRecord s r i
  (p.1, Except.ok p.2)

/-- One iteration of the loop in `cleanData` (lines 303–329): on a cleaned
record push it onto `this.processedRecords` and bump `processedCount`; on
`null` bump `excludedCount`; on a throw push a `processing_error` entry
carrying the message and bump `excludedCount`. -/
def processOne (step : StepFun) (acc : CleanerState × ℕ × ℕ) (ir : ℕ × Rec) :
    CleanerState × ℕ × ℕ :=
  match step acc.1 ir.2 ir.1 with
  | (s', Except.ok (some cleaned)) =>
      ({ s' with processedRecords := s'.processedRecords ++ [cleaned] },
        acc.2.1 + 1, acc.2.2)
  | (s', Except.ok none) => (s', acc.2.1, acc.2.2 + 1)
  | (s', Except.error msg) =>
      ({ s' with excludedRecords :=
          s'.excludedRecords ++ [⟨ir.1, Reason.processing_error, msg⟩] },
        acc.2.1, acc.2.2 + 1)

/-- The record loop of `cleanData`, over the indexed raw records, carrying
the instance state and the `processedCount`/`excludedCount` locals. -/
def cleanLoop (step : StepFun) (acc : CleanerState × ℕ × ℕ) :
    List (ℕ × Rec) → CleanerState × ℕ × ℕ
  | [] => acc
  | ir :: rest => cleanLoop step (processOne step acc ir) rest

/-- The object `cleanData` returns (lines 337–342).  In the source
`exclusionRate` is the string `(excludedCount / rawData.length *
100).toFixed(2)`; the model keeps the numeric value being formatted. -/
structure CleanResult where
  totalRecords : ℕ
  processedRecords : ℕ
  excludedRecords : ℕ
  exclusionRate : JNum
deriving DecidableEq, Repr

/-- Natural number as a JS number. -/
def jnat (n : ℕ) : JNum := JNum.num (n : ℚ)

/-- The `excludedCount / totalRecords * 100` expression shared by
`cleanData` (line 341) and `generateSummaryReport` (line 702). -/
def exclusionRateOf (excluded total : ℕ) : JNum :=
  JNum.mul (JNum.div (jnat excluded) (jnat total)) (JNum.num 100)

/-- The record-processing portion of `cleanData` together with the result
object it builds for `return` (lines 299–342, file I/O omitted): runs the
loop from the given instance state and packages the counts. -/
def cleanDataResult (s0 : CleanerState) (rows : List RawRow) :
    CleanerState × CleanResult :=
  let out := cleanLoop cleanRecordStep (s0, 0, 0) ((rows.map toRec).enum)
  (out.1,
    { totalRecords := rows.length
      processedRecords := out.2.1
      excludedRecords := out.2.2
      exclusionRate := exclusionRateOf out.2.2 rows.length })

/-- The quality-metrics object of `calculateQualityMetrics`: each field is
the average the source formats with `toFixed(2)` plus a unit, or `none`
both for the `'N/A'` string and for the `{}` returned on an empty
processed list. -/
structure QualityMetrics where
  averageSpeed : Option JNum
  averageFarePerMile : Option JNum
  averageIdleTime : Option JNum
deriving DecidableEq, Repr

/-- Average of the strictly positive values of a list of JS numbers, or
`none` when there are none: models `xs.filter(v => v > 0)` followed by
`reduce((a, b) => a + b, 0) / length`. -/
def positiveAverage (xs : List JNum) : Option JNum :=
  let pos := xs.filter (fun v => JNum.lt (JNum.num 0) v)
  if pos.length = 0 then none
  else some (JNum.div (pos.foldl JNum.add (JNum.num 0)) (jnat pos.length))

/-- `calculateQualityMetrics` (lines 741–755): on an empty processed list
the source returns `{}`; otherwise, for each derived feature, the average
of the strictly positive values among the processed records, `'N/A'`
(here `none`) when there are none. -/
def calculateQualityMetrics (recs : List Rec) : QualityMetrics :=
  if recs.length = 0 then ⟨none, none, none⟩
  else
    { averageSpeed := positiveAverage (recs.map (fun r => r.trip_speed_mph.toNum))
      averageFarePerMile := positiveAverage (recs.map (fun r => r.fare_per_mile.toNum))
      averageIdleTime := positiveAverage (recs.map (fun r => r.idle_time_minutes.toNum)) }

/-- `getExclusionSummary` (lines 729–735) as a histogram: the count the
summary object records for each reason code. -/
def getExclusionSummary (s : CleanerState) (rsn : Reason) : ℕ :=
  (s.excludedRecords.filter (fun e => e.reason = rsn)).length

/-- The report object assembled by `generateSummaryReport` (lines 696–711).
The wall-clock `timestamp` and the three fixed descriptive strings under
`derivedFeatures` are omitted; `exclusionRate` keeps the numeric value the
source formats as `toFixed(2) + '%'`. -/
structure SummaryReport where
  totalRecords : ℕ
  processedRecords : ℕ
  excludedRecords : ℕ
  exclusionRate : JNum
  exclusionReasons : Reason → ℕ
  dataQualityMetrics : QualityMetrics

/-- The report value built at lines 696–711 of `generateSummaryReport`. -/
def buildSummaryReport (s : CleanerState) (total processed excluded : ℕ) :
    SummaryReport :=
  { totalRecords := total
    processedRecords := processed
    excludedRecords := excluded
    exclusionRate := exclusionRateOf excluded total
    exclusionReasons := getExclusionSummary s
    dataQualityMetrics := calculateQualityMetrics s.processedRecords }

/-- The message of the error `generateSummaryReport` raises. -/
def refErrMsg : String := "ReferenceError: outputFile is not defined"

/-- `generateSummaryReport` (lines 695–723): the report object of lines
696–711 is built, but line 713 (`path.join(path.dirname(outputFile), ...)`)
reads `outputFile`, which is not declared in the method's scope, the class,
or the module — `outputFile` is a local parameter of the separate method
`cleanData` — so every call raises a `ReferenceError` before writing or
logging anything. -/
def generateSummaryReport (s : CleanerState) (total processed excluded : ℕ) :
    Except String SummaryReport :=
  let _report := buildSummaryReport s total processed excluded
  Except.error refErrMsg

/-- `cleanData(inputFile, outputFile)` end to end (lines 281–343): the
record loop, then `writeCleanedData` (pure file I/O, no state change), then
`generateSummaryReport` — whose `ReferenceError` propagates out of
`cleanData` before the `return` of lines 337–342 is reached. -/
def cleanData (s0 : CleanerState) (rows : List RawRow) :
    CleanerState × Except String CleanResult :=
  let out := cleanDataResult s0 rows
  match generateSummaryReport out.1 out.2.totalRecords out.2.processedRecords
      out.2.excludedRecords with
  | Except.error msg => (out.1, Except.error msg)
  | Except.ok _ => (out.1, Except.ok out.2)

/-- Speed formula as the specification states it (rational arithmetic):
`trip_distance / (trip_duration/3600)` capped at 100 when distance and
duration are positive, else 0. -/
def specSpeed (d t : ℚ) : ℚ :=
  if 0 < d ∧ 0 < t then min 100 (d / (t / 3600)) else 0

/-- Fare-per-mile formula as the specification states it:
`fare_amount / trip_distance` when distance is positive, else 0. -/
def specFarePerMile (f d : ℚ) : ℚ := if 0 < d then f / d else 0

/-- Idle-time formula as the specification states it:
`max(0, trip_duration/60 - (trip_distance/12)*60)` when distance and
duration are positive, else 0. -/
def specIdle (d t : ℚ) : ℚ :=
  if 0 < d ∧ 0 < t then max 0 (t / 60 - d / 12 * 60) else 0

/-- Modelled from the spec (claim C8's reading): the mean of a feature over
all accepted records — not just the strictly positive values — or `none`
for an empty batch. -/
def specMeanAll (qs : List ℚ) : Option ℚ :=
  if qs.length = 0 then none else some (qs.sum / qs.length)

/-- A numeric CSV cell: `f` is its `parseFloat`, `i` its `parseInt`
(truncation at the first non-digit); such strings are not valid `moment`
dates in the formats at issue. -/
def strNum (f i : ℚ) : JStr :=
  { empty := false, blank := false, pFloat := JNum.num f, pInt := JNum.num i
    time := none }

/-- A datetime CSV cell parsing to epoch second `t`; `parseFloat` and
`parseInt` of such a string read its leading year digits `y`. -/
def dtStr (t : ℤ) (y : ℚ) : JStr :=
  { empty := false, blank := false, pFloat := JNum.num y, pInt := JNum.num y
    time := some t }

/-- A non-numeric, non-date CSV cell such as `"abc"`: truthy, not blank,
parses to NaN, not a valid date. -/
def alphaStr : JStr :=
  { empty := false, blank := false, pFloat := JNum.nan, pInt := JNum.nan
    time := none }

/-- The empty CSV cell `""`: falsy, trims to empty. -/
def emptyStr : JStr :=
  { empty := true, blank := true, pFloat := JNum.nan, pInt := JNum.nan
    time := none }

/-- A fully valid raw row: a 2017 trip of 3600 s, 10 miles, $20 fare, one
passenger, Manhattan coordinates.  Derived features: speed 10 mph, fare per
mile 2, idle time 10 min. -/
def rowBase : RawRow :=
  { pickup_datetime := some (dtStr 1500000000 2017)
    dropoff_datetime := some (dtStr 1500003600 2017)
    pickup_longitude := some (strNum (Rat.divInt (-7398) 100) (-73))
    pickup_latitude := some (strNum (Rat.divInt 4075 100) 40)
    dropoff_longitude := some (strNum (Rat.divInt (-7397) 100) (-73))
    dropoff_latitude := some (strNum (Rat.divInt 4076 100) 40)
    passenger_count := some (strNum 1 1)
    trip_distance := some (strNum 10 10)
    fare_amount := some (strNum 20 20)
    tip_amount := some (strNum 0 0)
    tolls_amount := some (strNum 0 0)
    total_amount := some (strNum 20 20)
    payment_type := some (strNum 1 1) }

/-- `rowBase` with the non-numeric string `"abc"` as `trip_distance`. -/
def rowBadDist : RawRow := { rowBase with trip_distance := some alphaStr }

/-- `rowBase` with the non-numeric string `"abc"` as `fare_amount`. -/
def rowBadFare : RawRow := { rowBase with fare_amount := some alphaStr }

/-- `rowBase` with 80 miles in 3600 s: derived speed exactly 80 mph. -/
def row80 : RawRow := { rowBase with trip_distance := some (strNum 80 80) }

/-- `rowBase` with 80.01 miles in 3600 s: derived speed 80.01 mph. -/
def row8001 : RawRow :=
  { rowBase with trip_distance := some (strNum (Rat.divInt 8001 100) 80) }

/-- `rowBase` with `trip_distance = "0"`: accepted, all derived features
zero. -/
def rowZeroDist : RawRow := { rowBase with trip_distance := some (strNum 0 0) }

/-- A row with an empty pickup datetime and an out-of-range pickup latitude
(`"99"`): two independent defects at once. -/
def rowBothBad : RawRow :=
  { rowBase with
    pickup_datetime := some emptyStr
    pickup_latitude := some (strNum 99 99) }

/-- A two-row batch whose accepted records have derived speeds 0 and 10. -/
def batchMixed : List RawRow := [rowZeroDist, rowBase]

/-- A record already carrying numeric trip fields, for exercising the
feature derivation directly. -/
def recNum : Rec :=
  { toRec rowBase with
    trip_distance := JVal.num (JNum.num 10)
    trip_duration := JVal.num (JNum.num 3600)
    fare_amount := JVal.num (JNum.num 20) }

/-- A per-record action that always throws, for exercising the `catch`
branch of the loop. -/
def stepThrow : StepFun := fun s _ _ => (s, Except.error "boom")

/-- The accepted records of an indexed batch, in input order. -/
def accList (irs : List (ℕ × Rec)) : List Rec :=
  irs.filterMap (fun ir => acceptedRecord ir.2)

/-- The exclusion entries of an indexed batch, in input order. -/
def exclList (irs : List (ℕ × Rec)) : List ExclusionEntry :=
  irs.filterMap (fun ir =>
    match cleanRecordPure ir.2 with
    | Except.error rsn => some ⟨ir.1, rsn, detailsOf rsn⟩
    | Except.ok _ => none)

theorem cleanLoop_spec (irs : List (ℕ × Rec)) :
    ∀ s p e, cleanLoop cleanRecordStep (s, p, e) irs =
      ({ excludedRecords := s.excludedRecords ++ exclList irs
         suspiciousRecords := s.suspiciousRecords
         processedRecords := s.processedRecords ++ accList irs },
       p + (accList irs).length, e + (exclList irs).length) := by
  induction irs with
  | nil => intro s p e; simp [cleanLoop, accList, exclList]
  | cons ir rest ih =>
    intro s p e
    rcases h : cleanRecordPure ir.2 with rsn | c <;>
      simp only [cleanLoop, processOne, cleanRecordStep, cleanRecord, h,
        ih, accList, exclList, acceptedRecord, List.filterMap_cons,
        List.length_cons, List.append_assoc, List.singleton_append,
        Prod.mk.injEq] <;>
      refine ⟨?_, ?_, ?_⟩ <;> first
        | rfl
        | omega
        | trivial

theorem accList_exclList_length (irs : List (ℕ × Rec)) :
    (accList irs).length + (exclList irs).length = irs.length := by
  induction irs with
  | nil => simp [accList, exclList]
  | cons ir rest ih =>
    rcases h : cleanRecordPure ir.2 with rsn | c <;>
      simp [accList, exclList, acceptedRecord, h, List.filterMap_cons] at * <;>
      omega

theorem accList_enum (recs : List Rec) :
    accList recs.enum = recs.filterMap acceptedRecord := by
  have h := List.filterMap_map Prod.snd acceptedRecord recs.enum
  rw [List.enum_map_snd] at h
  rw [accList]
  exact h.symm

/-- Claim C1: the loop of `cleanData` partitions the batch — the counts in
the result object satisfy `processedRecords + excludedRecords =
totalRecords = rows.length` — the accepted records are accumulated in
input order (the in-order `filterMap` of the per-record outcome), and
`exclusionRate` is `excluded / total * 100`; but `cleanData` itself never
returns this object: its call to `generateSummaryReport` raises
`ReferenceError: outputFile is not defined` (line 713 reads a variable that
is only a local of `cleanData`), so every call rejects. -/
theorem cleanData_partition_order_and_crash (rows : List RawRow) :
    (cleanDataResult initState rows).2.processedRecords
        + (cleanDataResult initState rows).2.excludedRecords
      = (cleanDataResult initState rows).2.totalRecords
    ∧ (cleanDataResult initState rows).2.totalRecords = rows.length
    ∧ (cleanDataResult initState rows).1.processedRecords
        = (rows.map toRec).filterMap acceptedRecord
    ∧ (cleanDataResult initState rows).2.exclusionRate
        = exclusionRateOf (cleanDataResult initState rows).2.excludedRecords
            rows.length
    ∧ (cleanData initState rows).2 = Except.error refErrMsg := by
  have h := cleanLoop_spec ((rows.map toRec).enum) initState 0 0
  have hlen := accList_exclList_length ((rows.map toRec).enum)
  have henum : ((rows.map toRec).enum).length = rows.length := by
    simp [List.enum_length]
  refine ⟨?_, rfl, ?_, rfl, ?_⟩
  · simp only [cleanDataResult, h]
    omega
  · simp only [cleanDataResult]
    rw [h]
    simpa [initState] using accList_enum (rows.map toRec)
  · simp [cleanData, generateSummaryReport]

/-- Claim C9: the pipeline is deterministic and its per-run outputs do not
depend on pre-existing instance state: a run started from any state `s0`
returns the same counts (and the same exclusion rate) as a run from a
fresh `DataCleaner`, and appends exactly the fresh run's accepted-record
sequence to `s0`'s accumulator — so two runs on the same raw input yield
identical accepted-record sequences and identical report counts. -/
theorem cleanData_run_deterministic (rows : List RawRow) (s0 : CleanerState) :
    (cleanDataResult s0 rows).2 = (cleanDataResult initState rows).2
    ∧ (cleanDataResult s0 rows).1.processedRecords
        = s0.processedRecords
            ++ (cleanDataResult initState rows).1.processedRecords := by
  have h1 := cleanLoop_spec ((rows.map toRec).enum) s0 0 0
  have h2 := cleanLoop_spec ((rows.map toRec).enum) initState 0 0
  constructor
  · simp only [cleanDataResult]
    rw [h1, h2]
  · simp only [cleanDataResult]
    rw [h1, h2]
    simp [initState]

/-- Claim C10: on an empty batch both `cleanData`'s returned
`exclusionRate` (line 341) and the rate in the summary-report object
(line 702) evaluate `0 / 0 * 100`, which is NaN — not `0` and not an
error. -/
theorem exclusion_rate_empty_batch_nan :
    (cleanDataResult initState ([] : List RawRow)).2.excludedRecords = 0
    ∧ (cleanDataResult initState ([] : List RawRow)).2.totalRecords = 0
    ∧ (cleanDataResult initState ([] : List RawRow)).2.exclusionRate = JNum.nan
    ∧ (buildSummaryReport initState 0 0 0).exclusionRate = JNum.nan
    ∧ JNum.nan ≠ JNum.num 0 := by
  refine ⟨rfl, rfl, by decide, by decide, by decide⟩

/-- Claim C2: the bounds invariant fails on the code.  The row
`rowBadDist`, whose `trip_distance` cell is the non-numeric string
`"abc"`, passes every validation stage — `parseFloat("abc")` is NaN and
NaN satisfies neither `< 0` nor `> 500` — and is accepted with
`trip_distance = NaN`, which lies in no numeric range, contradicting
`trip_distance ∈ [0, 500]` for accepted records. -/
theorem accepted_record_nan_trip_distance :
    (acceptedRecord (toRec rowBadDist)).map (fun r => r.trip_distance)
      = some (JVal.num JNum.nan) := by decide

/-- Claim C7: the derived-field non-negativity invariant fails on the
code.  The row `rowBadFare`, whose `fare_amount` cell is the non-numeric
string `"abc"`, passes fare validation (NaN fails no range comparison) and
is accepted; its `fare_per_mile = NaN / 10 = NaN` is not a non-negative
number. -/
theorem accepted_record_nan_fare_per_mile :
    (acceptedRecord (toRec rowBadFare)).map (fun r => r.fare_per_mile)
      = some (JVal.num JNum.nan) := by decide

/-- Claim C5: the five validation stages of `cleanRecord` run in the fixed
source order and short-circuit: whichever stage fails first determines the
(only) recorded reason — in particular a record rejected by the
missing-value check is classified `missing_critical_data` no matter what
else is wrong with it. -/
theorem cleanRecord_stage_precedence :
    (∀ r, handleMissingValues r = none →
      cleanRecordPure r = Except.error Reason.missing_critical_data)
    ∧ (∀ r r1, handleMissingValues r = some r1 →
        validateTimestamps r1 = none →
        cleanRecordPure r = Except.error Reason.invalid_timestamps)
    ∧ (∀ r r1 r2, handleMissingValues r = some r1 →
        validateTimestamps r1 = some r2 →
        validateCoordinates r2 = none →
        cleanRecordPure r = Except.error Reason.invalid_coordinates)
    ∧ (∀ r r1 r2 r3, handleMissingValues r = some r1 →
        validateTimestamps r1 = some r2 →
        validateCoordinates r2 = some r3 →
        validateTripMetrics r3 = none →
        cleanRecordPure r = Except.error Reason.invalid_trip_metrics)
    ∧ (∀ r r1 r2 r3 r4, handleMissingValues r = some r1 →
        validateTimestamps r1 = some r2 →
        validateCoordinates r2 = some r3 →
        validateTripMetrics r3 = some r4 →
        validateFareData r4 = none →
        cleanRecordPure r = Except.error Reason.invalid_fare_data) := by
  refine ⟨?_, ?_, ?_, ?_, ?_⟩ <;> intros <;>
    simp [cleanRecordPure, validateStages, *]

/-- Witness for claim C5: `rowBothBad` has an empty pickup datetime and a
pickup latitude of 99 (outside NYC bounds) — coordinate validation on it
fails — yet it is rejected with `missing_critical_data` only. -/
theorem cleanRecord_stage_precedence_example :
    validateCoordinates (toRec rowBothBad) = none
    ∧ cleanRecordPure (toRec rowBothBad)
        = Except.error Reason.missing_critical_data :=
  ⟨by decide, cleanRecord_stage_precedence.1 (toRec rowBothBad) (by decide)⟩

/-- Claim C6: a throw while processing one record is caught by the loop of
`cleanData`: the record is logged as an exclusion with reason
`processing_error` carrying the error message, the excluded count is
bumped, and the loop proceeds with the remaining records exactly as if
nothing had happened — a per-record failure never aborts the batch. -/
theorem processing_error_caught_and_continues (step : StepFun)
    (s s' : CleanerState) (p e i : ℕ) (r : Rec) (rest : List (ℕ × Rec))
    (msg : String) (h : step s r i = (s', Except.error msg)) :
    cleanLoop step (s, p, e) ((i, r) :: rest)
      = cleanLoop step
          ({ s' with excludedRecords :=
              s'.excludedRecords ++ [⟨i, Reason.processing_error, msg⟩] },
            p, e + 1) rest := by
  simp [cleanLoop, processOne, h]

/-- Witness for claim C6: a step that always throws `"boom"` turns a
two-record batch into two `processing_error` exclusions — both records are
visited and the loop finishes. -/
theorem processing_error_caught_example :
    cleanLoop stepThrow (initState, 0, 0) [(0, toRec rowBase), (1, toRec rowBase)]
      = ({ excludedRecords :=
            [⟨0, Reason.processing_error, "boom"⟩,
             ⟨1, Reason.processing_error, "boom"⟩]
           suspiciousRecords := []
           processedRecords := [] }, 0, 2) := by
  rw [processing_error_caught_and_continues stepThrow initState initState 0 0 0
    (toRec rowBase) [(1, toRec rowBase)] "boom" rfl]
  decide

theorem rAdd_eq (a b : ℚ) : rAdd a b = a + b := by
  unfold rAdd
  have ha : (a.den : ℚ) ≠ 0 := by exact_mod_cast a.den_nz
  have hb : (b.den : ℚ) ≠ 0 := by exact_mod_cast b.den_nz
  rw [Rat.divInt_eq_div]
  push_cast
  conv_rhs => rw [← Rat.num_div_den a, ← Rat.num_div_den b]
  rw [div_add_div _ _ ha hb]
  ring_nf

theorem rMul_eq (a b : ℚ) : rMul a b = a * b := by
  unfold rMul
  rw [Rat.divInt_eq_div]
  push_cast
  conv_rhs => rw [← Rat.num_div_den a, ← Rat.num_div_den b]
  rw [div_mul_div_comm]

theorem rDiv_eq (a b : ℚ) : rDiv a b = a / b := by
  unfold rDiv
  by_cases hb : b = 0
  · subst hb; simp
  · have ha : (a.den : ℚ) ≠ 0 := by exact_mod_cast a.den_nz
    have hb1 : (b.den : ℚ) ≠ 0 := by exact_mod_cast b.den_nz
    have hbn : (b.num : ℚ) ≠ 0 := by exact_mod_cast Rat.num_ne_zero.mpr hb
    rw [Rat.divInt_eq_div]
    push_cast
    conv_rhs => rw [← Rat.num_div_den a, ← Rat.num_div_den b]
    field_simp

theorem jdiv_num_num (a b : ℚ) (hb : b ≠ 0) :
    JNum.div (JNum.num a) (JNum.num b) = JNum.num (a / b) := by
  simp [JNum.div, hb, rDiv_eq]

theorem jmul_num_num (a b : ℚ) :
    JNum.mul (JNum.num a) (JNum.num b) = JNum.num (a * b) := by
  simp [JNum.mul, rMul_eq]

theorem jadd_num_num (a b : ℚ) :
    JNum.add (JNum.num a) (JNum.num b) = JNum.num (a + b) := by
  simp [JNum.add, rAdd_eq]

theorem jsub_num_num (a b : ℚ) :
    JNum.sub (JNum.num a) (JNum.num b) = JNum.num (a - b) := by
  simp only [JNum.sub, JNum.neg, jadd_num_num]
  ring_nf

theorem jmax_num_num (a b : ℚ) :
    JNum.jmax (JNum.num a) (JNum.num b) = JNum.num (max a b) := by
  rcases le_or_lt a b with h | h
  · rcases eq_or_lt_of_le h with rfl | h'
    · simp [JNum.jmax, JNum.lt]
    · simp [JNum.jmax, JNum.lt, h', max_eq_right h]
  · simp [JNum.jmax, JNum.lt, not_lt.mpr h.le, max_eq_left h.le]

theorem ite_gt_min (x : ℚ) : (if 100 < x then (100:ℚ) else x) = min 100 x := by
  rcases le_or_lt x 100 with h | h
  · rw [if_neg (not_lt.mpr h), min_eq_right h]
  · rw [if_pos h, min_eq_left h.le]

/-- Claim C3: for a record with numeric trip fields, the derived features
equal the specification's formulas in exact arithmetic — speed is
`distance / (duration/3600)` capped at 100 when both are positive and 0
otherwise, fare per mile is `fare / distance` when distance is positive and
0 otherwise, and idle time is `max(0, duration/60 - (distance/12)*60)` when
both are positive and 0 otherwise. -/
theorem calculateDerivedFeatures_formulas (r : Rec) (d t f : ℚ)
    (hd : r.trip_distance = JVal.num (JNum.num d))
    (ht : r.trip_duration = JVal.num (JNum.num t))
    (hf : r.fare_amount = JVal.num (JNum.num f)) :
    (calculateDerivedFeatures r).trip_speed_mph
        = JVal.num (JNum.num (specSpeed d t))
    ∧ (calculateDerivedFeatures r).fare_per_mile
        = JVal.num (JNum.num (specFarePerMile f d))
    ∧ (calculateDerivedFeatures r).idle_time_minutes
        = JVal.num (JNum.num (specIdle d t)) := by
  refine ⟨?_, ?_, ?_⟩
  · by_cases h1 : 0 < d <;> by_cases h2 : 0 < t
    · have hth : t / 3600 ≠ 0 := div_ne_zero (ne_of_gt h2) (by norm_num)
      simp only [calculateDerivedFeatures, hd, ht, hf, JVal.toNum, gtC, JNum.lt,
        h1, h2, decide_True, Bool.and_self, if_true,
        jdiv_num_num _ _ (by norm_num : (3600:ℚ) ≠ 0), jdiv_num_num _ _ hth,
        specSpeed, and_self, decide_eq_true_eq]
      rw [← apply_ite JNum.num, ite_gt_min]
    all_goals
      simp [calculateDerivedFeatures, hd, ht, hf, JVal.toNum, gtC, JNum.lt,
        h1, h2, specSpeed]
  · by_cases h1 : 0 < d
    · simp [calculateDerivedFeatures, hd, ht, hf, JVal.toNum, gtC, JNum.lt,
        h1, jdiv_num_num _ _ (ne_of_gt h1), specFarePerMile]
    · simp [calculateDerivedFeatures, hd, ht, hf, JVal.toNum, gtC, JNum.lt,
        h1, specFarePerMile]
  · by_cases h1 : 0 < d <;> by_cases h2 : 0 < t
    · simp only [calculateDerivedFeatures, hd, ht, hf, JVal.toNum, gtC, JNum.lt,
        h1, h2, decide_True, Bool.and_self, if_true,
        jdiv_num_num _ _ (by norm_num : (3600:ℚ) ≠ 0),
        jdiv_num_num _ _ (by norm_num : (60:ℚ) ≠ 0),
        jdiv_num_num _ _ (by norm_num : (12:ℚ) ≠ 0),
        jmul_num_num, jsub_num_num, jmax_num_num, specIdle, and_self,
        decide_eq_true_eq]
    all_goals
      simp [calculateDerivedFeatures, hd, ht, hf, JVal.toNum, gtC, JNum.lt,
        h1, h2, specIdle]

/-- Witness for claim C3: a record with `trip_distance = 10`,
`trip_duration = 3600`, `fare_amount = 20` derives `trip_speed_mph = 10`,
`fare_per_mile = 2`, `idle_time_minutes = 10`. -/
theorem calculateDerivedFeatures_formulas_example :
    (calculateDerivedFeatures recNum).trip_speed_mph = JVal.num (JNum.num 10)
    ∧ (calculateDerivedFeatures recNum).fare_per_mile = JVal.num (JNum.num 2)
    ∧ (calculateDerivedFeatures recNum).idle_time_minutes
        = JVal.num (JNum.num 10) := by
  have h := calculateDerivedFeatures_formulas recNum 10 3600 20 rfl rfl rfl
  have hs : specSpeed 10 3600 = 10 := by norm_num [specSpeed]
  have hf : specFarePerMile 20 10 = 2 := by norm_num [specFarePerMile]
  have hi : specIdle 10 3600 = 10 := by norm_num [specIdle]
  rw [hs, hf, hi] at h
  exact h

/-- Claim C4: a record that passes all five validation stages is rejected
with reason `outlier` if and only if its derived `trip_speed_mph > 80` or
`fare_per_mile > 50` or `idle_time_minutes > 120`. -/
theorem outlier_rejection_iff_thresholds (row : RawRow) (r5 : Rec)
    (sp fp idl : ℚ)
    (hv : validateStages (toRec row) = Except.ok r5)
    (hsp : (calculateDerivedFeatures r5).trip_speed_mph
        = JVal.num (JNum.num sp))
    (hfp : (calculateDerivedFeatures r5).fare_per_mile
        = JVal.num (JNum.num fp))
    (hidl : (calculateDerivedFeatures r5).idle_time_minutes
        = JVal.num (JNum.num idl)) :
    cleanRecordPure (toRec row) = Except.error Reason.outlier
      ↔ (80 < sp ∨ 50 < fp ∨ 120 < idl) := by
  unfold cleanRecordPure
  rw [hv]
  simp only [isOutlier, hsp, hfp, hidl, JVal.toNum, gtC, JNum.lt]
  by_cases ho : (80 < sp ∨ 50 < fp ∨ 120 < idl)
  · have hb : (decide (80 < sp) || decide (50 < fp) || decide (120 < idl))
        = true := by
      simpa [Bool.or_eq_true, decide_eq_true_eq, or_assoc] using ho
    simp [hb, ho]
  · have hb : (decide (80 < sp) || decide (50 < fp) || decide (120 < idl))
        = false := by
      simp only [not_or] at ho
      simp [ho.1, ho.2.1, ho.2.2]
    simp [hb, ho, or_assoc]

/-- Witness for claim C4: a record deriving a speed of exactly 80.01 mph
is rejected as an outlier, while one deriving exactly 80 mph is accepted
(with `trip_speed_mph = 80`). -/
theorem outlier_threshold_boundary :
    cleanRecordPure (toRec row8001) = Except.error Reason.outlier
    ∧ (acceptedRecord (toRec row80)).map (fun r => r.trip_speed_mph)
        = some (JVal.num (JNum.num 80)) := by
  constructor
  · exact (outlier_rejection_iff_thresholds row8001 _ (Rat.divInt 8001 100)
      (Rat.divInt 2000 8001) 0 rfl (by decide) (by decide) (by decide)).mpr
      (Or.inl (by decide))
  · decide

theorem filter_pos_map (qs : List ℚ) :
    (qs.map JNum.num).filter (fun v => JNum.lt (JNum.num 0) v)
      = (qs.filter (fun q => decide (0 < q))).map JNum.num := by
  induction qs with
  | nil => rfl
  | cons q rest ih =>
    simp only [List.map_cons, List.filter_cons, ih]
    by_cases h : 0 < q <;> simp [JNum.lt, h]

theorem foldl_add_map (qs : List ℚ) :
    ∀ a, (qs.map JNum.num).foldl JNum.add (JNum.num a)
      = JNum.num (a + qs.sum) := by
  induction qs with
  | nil => intro a; simp
  | cons q rest ih =>
    intro a
    simp only [List.map_cons, List.foldl_cons, jadd_num_num, ih,
      List.sum_cons]
    ring_nf

theorem positiveAverage_map (qs : List ℚ) :
    positiveAverage (qs.map JNum.num)
      = (if (qs.filter (fun q => decide (0 < q))).length = 0 then none
         else some (JNum.num ((qs.filter (fun q => decide (0 < q))).sum
           / ((qs.filter (fun q => decide (0 < q))).length : ℚ)))) := by
  unfold positiveAverage
  rw [filter_pos_map]
  simp only [List.length_map]
  by_cases h : (qs.filter (fun q => decide (0 < q))).length = 0
  · simp [h]
  · have hne : ((qs.filter (fun q => decide (0 < q))).length : ℚ) ≠ 0 := by
      exact_mod_cast h
    simp only [h, if_false, foldl_add_map, zero_add, jnat,
      jdiv_num_num _ _ hne]

/-- Claim C8 as amended: for each of the three derived features, the
report's quality metric is only an average — no min and no max — computed
over those accepted records whose value for the feature is strictly
positive, and it is `'N/A'`/absent exactly when no accepted record has a
positive value. -/
theorem quality_metrics_positive_only_mean (recs : List Rec)
    (qsS qsF qsI : List ℚ)
    (hS : recs.map (fun r => r.trip_speed_mph.toNum) = qsS.map JNum.num)
    (hF : recs.map (fun r => r.fare_per_mile.toNum) = qsF.map JNum.num)
    (hI : recs.map (fun r => r.idle_time_minutes.toNum) = qsI.map JNum.num) :
    (calculateQualityMetrics recs).averageSpeed
        = (if (qsS.filter (fun q => decide (0 < q))).length = 0 then none
           else some (JNum.num ((qsS.filter (fun q => decide (0 < q))).sum
             / ((qsS.filter (fun q => decide (0 < q))).length : ℚ))))
    ∧ (calculateQualityMetrics recs).averageFarePerMile
        = (if (qsF.filter (fun q => decide (0 < q))).length = 0 then none
           else some (JNum.num ((qsF.filter (fun q => decide (0 < q))).sum
             / ((qsF.filter (fun q => decide (0 < q))).length : ℚ))))
    ∧ (calculateQualityMetrics recs).averageIdleTime
        = (if (qsI.filter (fun q => decide (0 < q))).length = 0 then none
           else some (JNum.num ((qsI.filter (fun q => decide (0 < q))).sum
             / ((qsI.filter (fun q => decide (0 < q))).length : ℚ)))) := by
  unfold calculateQualityMetrics
  by_cases hr : recs.length = 0
  · rw [List.length_eq_zero] at hr
    subst hr
    simp only [List.map_nil] at hS hF hI
    have hSe : qsS = [] := by
      cases qsS with
      | nil => rfl
      | cons a l => simp at hS
    have hFe : qsF = [] := by
      cases qsF with
      | nil => rfl
      | cons a l => simp at hF
    have hIe : qsI = [] := by
      cases qsI with
      | nil => rfl
      | cons a l => simp at hI
    subst hSe; subst hFe; subst hIe
    simp
  · simp only [hr, if_false]
    refine ⟨?_, ?_, ?_⟩
    · rw [hS, positiveAverage_map]
    · rw [hF, positiveAverage_map]
    · rw [hI, positiveAverage_map]

/-- Counterexample for claim C8: for the two-record batch `batchMixed`,
whose accepted records have derived speeds 0 and 10, the report's
`averageSpeed` is 10 — the mean over the strictly positive speeds only —
whereas the mean over all accepted records is 5; and the report carries no
min or max at all (see `QualityMetrics`).  So the report's statistics are
not the claimed mean/min/max over all accepted records. -/
theorem quality_metrics_not_mean_over_all_accepted :
    ((cleanDataResult initState batchMixed).1.processedRecords.map
        (fun r => r.trip_speed_mph.toNum)) = [JNum.num 0, JNum.num 10]
    ∧ (calculateQualityMetrics
        (cleanDataResult initState batchMixed).1.processedRecords).averageSpeed
      = some (JNum.num 10)
    ∧ specMeanAll [0, 10] = some 5
    ∧ (JNum.num 10 : JNum) ≠ JNum.num 5 := by
  refine ⟨by decide, by decide, ?_, by decide⟩
  norm_num [specMeanAll]

/-- Witness for the amended claim C8: on `batchMixed` the three reported
averages are 10 mph, 2 $/mile and 10 minutes (each over positive values
only). -/
theorem quality_metrics_positive_only_mean_example :
    (calculateQualityMetrics
        (cleanDataResult initState batchMixed).1.processedRecords).averageSpeed
      = some (JNum.num 10)
    ∧ (calculateQualityMetrics
        (cleanDataResult initState batchMixed).1.processedRecords).averageFarePerMile
      = some (JNum.num 2)
    ∧ (calculateQualityMetrics
        (cleanDataResult initState batchMixed).1.processedRecords).averageIdleTime
      = some (JNum.num 10) := by
  have h := quality_metrics_positive_only_mean
      (cleanDataResult initState batchMixed).1.processedRecords
      [0, 10] [0, 2] [0, 10] (by decide) (by decide) (by decide)
  refine ⟨?_, ?_, ?_⟩
  · rw [h.1]
    norm_num [List.filter_cons, List.filter_nil, List.sum_cons, List.sum_nil]
  · rw [h.2.1]
    norm_num [List.filter_cons, List.filter_nil, List.sum_cons, List.sum_nil]
  · rw [h.2.2]
    norm_num [List.filter_cons, List.filter_nil, List.sum_cons, List.sum_nil]
